import Mathlib

/-!
Shallow embedding of `server/controllers/auth.js` (MERN user-authentication
controllers).  The handlers are modelled as pure functions from the request
data, the persistent account collection and the external-call outcomes to
the list of observable events (response invocations, email-send invocations,
database writes, middleware continuation) together with the collection after
the request.  JSON web tokens are modelled structurally: a signed token
records its payload, the secret it was signed with and its absolute expiry
time; verification compares the secret and the clock exactly as
`jsonwebtoken`'s `verify` does (signature match plus non-expiry).
-/

namespace Auth

/-- Payload carried inside a signed token: the activation payload
`{name, email, password}` from `register`, the reset payload `{name}` from
`forgetPassword`, or the session payload `{_id}` from `login`. -/
inductive Payload where
  | activation (name : String) (email : String) (password : String)
  | reset (name : String)
  | session (id : Nat)
deriving DecidableEq, Repr

/-- A JSON web token: either a well-formed token signed with some secret and
carrying an absolute expiry timestamp, or a malformed string that no
verification accepts. -/
inductive Token where
  | signed (payload : Payload) (secret : String) (exp : Nat)
  | malformed (raw : String)
deriving DecidableEq, Repr

/-- `jwt.verify token secret` at clock time `now`: succeeds with the payload
exactly when the token is well-formed, was signed with `secret`, and is not
yet expired; otherwise it reports an error (modelled as `none`). -/
def jwtVerify (t : Token) (secret : String) (now : Nat) : Option Payload :=
  match t with
  | .signed p s e => if s = secret ∧ now < e then some p else none
  | .malformed _ => none

/-- `jwt.decode token`: extracts the payload without any verification. -/
def jwtDecode : Token → Option Payload
  | .signed p _ _ => some p
  | .malformed _ => none

/-- Field extraction from a decoded payload, as the destructuring
`const {name, email, password} = jwt.decode(token)`; a field absent from the
payload destructures to the empty string (for `undefined`). -/
def Payload.fieldName : Payload → String
  | .activation n _ _ => n
  | .reset n => n
  | .session _ => ""

/-- `email` field of a decoded payload (empty when absent). -/
def Payload.fieldEmail : Payload → String
  | .activation _ e _ => e
  | _ => ""

/-- `password` field of a decoded payload (empty when absent). -/
def Payload.fieldPassword : Payload → String
  | .activation _ _ p => p
  | _ => ""

/-- A stored account document of the `User` collection.  `password` is the
stored credential field, `resetPasswordLink` holds the most recently issued
reset token (`none` models the empty string). -/
structure User where
  _id : Nat
  username : String
  name : String
  email : String
  password : String
  role : String
  resetPasswordLink : Option Token
deriving DecidableEq, Repr

/-- The environment-configured values the controllers read:
`JWT_ACCOUNT_ACTIVATION`, `JWT_SECRET`, `JWT_RESET_PASSWORD` and
`APPLICATION_ERROR_CODE`. -/
structure Env where
  jwtAccountActivation : String
  jwtSecret : String
  jwtResetPassword : String
  appErrorCode : Nat
deriving DecidableEq, Repr

/-- A JSON response body: a `message` field, an `error` field, or the login
success body, which carries the session token and exactly the four public
account fields `{_id, name, email, role}` (the stored credential is not a
component of this constructor). -/
inductive ResBody where
  | message (s : String)
  | error (s : String)
  | loginData (token : Token) (id : Nat) (name : String) (email : String) (role : String)
deriving DecidableEq, Repr

/-- An observable event of a handler run, in order of occurrence:
`respond st b` is an invocation of `res.status(st).json(b)` (`st = none` for
a plain `res.json(b)`, i.e. status 200); `sendEmail` is an invocation of
`ses.sendEmail` for the given recipient carrying the given token;
`dbWrite uid` is a successful persistence of the document with `_id = uid`;
`next` is the middleware continuation; `throwRefError x` is a thrown
`ReferenceError` on the undeclared identifier `x` (the controller reads the
bare name `APPLICATION_ERROR_CODE` in two places instead of
`process.env.APPLICATION_ERROR_CODE`), which aborts before any response is
produced on that path. -/
inductive Event where
  | respond (status : Option Nat) (body : ResBody)
  | sendEmail (recipient : String) (token : Token)
  | dbWrite (userId : Nat)
  | next
  | throwRefError (ident : String)
deriving DecidableEq, Repr

/-- `User.findOne({email})`: first stored account with the given email. -/
def findOneByEmail (db : List User) (email : String) : Option User :=
  db.find? (fun u => u.email = email)

/-- `User.findOne({resetPasswordLink})`: first stored account whose
`resetPasswordLink` field equals the given token. -/
def findOneByResetLink (db : List User) (tok : Token) : Option User :=
  db.find? (fun u => u.resetPasswordLink = some tok)

/-- `User.findOne({_id})`: first stored account with the given id. -/
def findOneById (db : List User) (id : Nat) : Option User :=
  db.find? (fun u => u._id = id)

/-- `user.updateOne({resetPasswordLink: token})`: persist the new reset token
into the document with `user`'s id. -/
def updateResetLink (db : List User) (uid : Nat) (tok : Token) : List User :=
  db.map (fun v => if v._id = uid then { v with resetPasswordLink := some tok } else v)

/-- `lodash.extend(user, {password: newPassword, resetPasswordLink: ''})`:
the found document with the new password applied and the reset link
cleared. -/
def applyResetFields (u : User) (newPassword : String) : User :=
  { u with password := newPassword, resetPasswordLink := none }

/-- `user.save()` after `lodash.extend`: replace the document with `u`'s id
by the extended document. -/
def saveResetUser (db : List User) (u : User) (newPassword : String) : List User :=
  db.map (fun v => if v._id = u._id then applyResetFields u newPassword else v)

/-- The reset token `jwt.sign({name}, process.env.JWT_RESET_PASSWORD,
{expiresIn: '60m'})` issued at clock time `now`. -/
def mkResetToken (env : Env) (name : String) (now : Nat) : Token :=
  .signed (.reset name) env.jwtResetPassword (now + 3600)

/-- The session token `jwt.sign({_id}, process.env.JWT_SECRET,
{expiresIn: '7d'})` issued at clock time `now`. -/
def mkSessionToken (env : Env) (id : Nat) (now : Nat) : Token :=
  .signed (.session id) env.jwtSecret (now + 604800)

/-- `registerActivate`: verify the activation token; on verification failure
respond with the expired-link error at the configured code and change
nothing; otherwise decode the payload, re-check email uniqueness, and create
the account (`newId` and `username` stand for the generated document id and
`shortId.generate()`; `saveFails` is the outcome of `newUser.save`).
Returns the events and the collection after the request. -/
def registerActivate (env : Env) (db : List User) (token : Token) (now : Nat)
    (newId : Nat) (username : String) (saveFails : Bool) : List Event × List User :=
  match jwtVerify token env.jwtAccountActivation now with
  | none =>
      ([Event.respond (some env.appErrorCode) (ResBody.error "Expired link. Try again")], db)
  | some _ =>
      match jwtDecode token with
      | none => ([], db)  -- unreachable: a token that verifies also decodes
      | some p =>
          match findOneByEmail db p.fieldEmail with
          | some _ =>
              ([Event.respond (some 401) (ResBody.error "Email is already taken")], db)
          | none =>
              if saveFails then
                ([Event.respond (some 401)
                    (ResBody.error "Unable to save your data. Try again.")], db)
              else
                ([Event.dbWrite newId,
                  Event.respond none (ResBody.message "Registration success. Please login.")],
                 db ++ [{ _id := newId, username := username, name := p.fieldName,
                          email := p.fieldEmail, password := p.fieldPassword,
                          role := "regular", resetPasswordLink := none }])

/-- `login`: look the account up by email; on miss respond the no-such-user
error; check the candidate password through the account's `authenticate`
capability (the mongoose `User` model is not part of the controller file, so
the capability is passed in abstractly); on mismatch respond the
password-mismatch error; on success respond the session token together with
the four public fields. -/
def login (authenticate : User → String → Bool) (env : Env) (db : List User)
    (email : String) (password : String) (now : Nat) : List Event :=
  match findOneByEmail db email with
  | none =>
      [Event.respond (some env.appErrorCode)
        (ResBody.error "User with that email doesn\x27t exists. Please register.")]
  | some user =>
      if authenticate user password then
        [Event.respond none
          (ResBody.loginData (mkSessionToken env user._id now)
            user._id user.name user.email user.role)]
      else
        [Event.respond (some env.appErrorCode)
          (ResBody.error "Password isn\x27t match. Please try again.")]

/-- Modelled from the spec: the admin member of the role enumeration
`{regular, admin}` (`listEnum.user.role.admin`; the `listEnum` module is not
among the controller sources). -/
def adminRoleValue : String := "admin"

/-- `adminMiddleware`: resolve the account by the authenticated id; on miss
respond the user-not-found error; if the role is not the admin role respond
the access-denied error with the same configured status code and error-string
shape; otherwise attach the account as `req.profile` and call `next`.
Returns the events together with the attached profile (if any). -/
def adminMiddleware (env : Env) (db : List User) (authAdminId : Nat) :
    List Event × Option User :=
  match findOneById db authAdminId with
  | none =>
      ([Event.respond (some env.appErrorCode) (ResBody.error "User is not found")], none)
  | some user =>
      if user.role ≠ adminRoleValue then
        ([Event.respond (some env.appErrorCode)
            (ResBody.error "Admin resource. Access is denied.")], none)
      else
        ([Event.next], some user)

/-- `forgetPassword`: look the account up by email; on miss respond an
error; issue the reset token; persist it into `resetPasswordLink` via
`updateOne` (`updateFails` is that call's error outcome) — on failure respond
an error without ever invoking the email send; on success invoke
`ses.sendEmail` (`emailFails` is the delivery outcome) and then respond.  On
delivery failure the catch handler evaluates the undeclared bare identifier
`APPLICATION_ERROR_CODE`, so a `ReferenceError` is thrown before any response
is produced. -/
def forgetPassword (env : Env) (db : List User) (email : String) (now : Nat)
    (updateFails : Bool) (emailFails : Bool) : List Event × List User :=
  match findOneByEmail db email with
  | none =>
      ([Event.respond (some env.appErrorCode)
          (ResBody.error "User with that email does not exists")], db)
  | some user =>
      if updateFails then
        ([Event.respond (some env.appErrorCode)
            (ResBody.error "Reset password is failed. Try later.")], db)
      else
        if emailFails then
          ([Event.dbWrite user._id,
            Event.sendEmail email (mkResetToken env user.name now),
            Event.throwRefError "APPLICATION_ERROR_CODE"],
           updateResetLink db user._id (mkResetToken env user.name now))
        else
          ([Event.dbWrite user._id,
            Event.sendEmail email (mkResetToken env user.name now),
            Event.respond none
              (ResBody.message ("Email has been sent to " ++ email ++
                ". Click on the link to reset password"))],
           updateResetLink db user._id (mkResetToken env user.name now))

/-- The events produced by the `jwt.verify` callback inside `resetPassword`:
on verification failure the callback responds the expired-token error; its
`return` only exits the callback, so the enclosing handler continues either
way. -/
def resetVerifyEvents (env : Env) (link : Token) (now : Nat) : List Event :=
  match jwtVerify link env.jwtResetPassword now with
  | none =>
      [Event.respond (some env.appErrorCode)
        (ResBody.error "Token is expired. Try again later.")]
  | some _ => []

/-- `resetPassword`: when the request's `resetPasswordLink` is absent or
empty (falsy), the whole handler body is skipped: no response, no state
change.  Otherwise the verify callback may respond the expired-token error,
and — independently, since the callback return does not stop the handler —
the account is looked up by the stored `resetPasswordLink`; on miss respond
the reset-failed error; otherwise extend the document with the new password
and the cleared link and save it (`saveFails` is `user.save`'s error
outcome; on a save error the handler evaluates the undeclared bare
identifier `APPLICATION_ERROR_CODE`, throwing a `ReferenceError`). -/
def resetPassword (env : Env) (db : List User) (resetPasswordLink : Option Token)
    (newPassword : String) (now : Nat) (saveFails : Bool) : List Event × List User :=
  match resetPasswordLink with
  | none => ([], db)
  | some link =>
      match findOneByResetLink db link with
      | none =>
          (resetVerifyEvents env link now ++
            [Event.respond (some env.appErrorCode)
              (ResBody.error "Password reset failed. Try again later.")], db)
      | some user =>
          if saveFails then
            (resetVerifyEvents env link now ++
              [Event.throwRefError "APPLICATION_ERROR_CODE"], db)
          else
            (resetVerifyEvents env link now ++
              [Event.dbWrite user._id,
               Event.respond none (ResBody.message "Reset password is success.")],
             saveResetUser db user newPassword)

/-- A response body that carries a session token (only the login success
body does). -/
def ResBody.hasToken : ResBody → Bool
  | .loginData _ _ _ _ _ => true
  | _ => false

/-- An event that responds with a body carrying a session token. -/
def Event.hasToken : Event → Bool
  | .respond _ b => b.hasToken
  | _ => false

/-- An event that is a response invocation (`res.json` / `res.status.json`). -/
def Event.isRespond : Event → Bool
  | .respond _ _ => true
  | _ => false

/-- No email-send invocation occurs before the first successful database
write in the event trace. -/
def sendsOnlyAfterWrite : List Event → Bool
  | [] => true
  | Event.dbWrite _ :: _ => true
  | Event.sendEmail _ _ :: _ => false
  | _ :: rest => sendsOnlyAfterWrite rest

/-! Concrete sample data used to instantiate the theorems below. -/

/-- A sample environment configuration. -/
def sampleEnv : Env :=
  { jwtAccountActivation := "actSecret", jwtSecret := "sessSecret",
    jwtResetPassword := "rstSecret", appErrorCode := 400 }

/-- A sample reset token for the account named Alice, expiring at time 3600. -/
def sampleResetToken : Token := .signed (.reset "Alice") "rstSecret" 3600

/-- A sample regular account holding `sampleResetToken` as its pending reset
link. -/
def alice : User :=
  { _id := 1, username := "u1", name := "Alice", email := "alice@x.com",
    password := "hash1", role := "regular", resetPasswordLink := some sampleResetToken }

/-- A sample admin account. -/
def bobAdmin : User :=
  { _id := 2, username := "u2", name := "Bob", email := "bob@x.com",
    password := "hash2", role := "admin", resetPasswordLink := none }

/-- A sample `authenticate` capability: accepts exactly the password
"correct". -/
def samplePwCheck : User → String → Bool := fun _ p => p == "correct"

/-! Helper lemmas shared by several theorems. -/

/-- A lookup by reset token fails when no stored account holds it. -/
theorem findOneByResetLink_none_of (db : List User) (tok : Token)
    (h : ∀ v ∈ db, v.resetPasswordLink ≠ some tok) :
    findOneByResetLink db tok = none := by
  unfold findOneByResetLink
  rw [List.find?_eq_none]
  intro x hx
  simpa using h x hx

/-- Running `resetPassword` when the lookup finds `u` (and the save
succeeds): the verify-callback events, then the write and the success
response, with the extended document saved. -/
theorem resetPassword_found (env : Env) (db : List User) (tok : Token)
    (np : String) (now : Nat) (u : User)
    (hfind : findOneByResetLink db tok = some u) :
    resetPassword env db (some tok) np now false
      = (resetVerifyEvents env tok now ++
          [Event.dbWrite u._id,
           Event.respond none (ResBody.message "Reset password is success.")],
         saveResetUser db u np) := by
  simp only [resetPassword]
  rw [hfind]
  rfl

/-- Running `resetPassword` when the lookup misses: the verify-callback
events, then the reset-failed error, with the collection unchanged. -/
theorem resetPassword_notFound (env : Env) (db : List User) (tok : Token)
    (np : String) (now : Nat) (sf : Bool)
    (hnone : findOneByResetLink db tok = none) :
    resetPassword env db (some tok) np now sf
      = (resetVerifyEvents env tok now ++
          [Event.respond (some env.appErrorCode)
            (ResBody.error "Password reset failed. Try again later.")], db) := by
  simp only [resetPassword]
  rw [hnone]

/-- After a successful save in `resetPassword`, the collection contains the
found account with the new password and a cleared reset link. -/
theorem saveResetUser_mem (db : List User) (u : User) (np : String) (hu : u ∈ db) :
    ∃ v ∈ saveResetUser db u np,
      v._id = u._id ∧ v.password = np ∧ v.resetPasswordLink = none := by
  refine ⟨applyResetFields u np, ?_, rfl, rfl, rfl⟩
  unfold saveResetUser
  exact List.mem_map.mpr ⟨u, hu, by simp⟩

/-- After a successful save in `resetPassword`, no account holds the
consumed token, provided only accounts with the found account's id held it
before. -/
theorem saveResetUser_clears (db : List User) (u : User) (np : String) (tok : Token)
    (huniq : ∀ v ∈ db, v.resetPasswordLink = some tok → v._id = u._id) :
    findOneByResetLink (saveResetUser db u np) tok = none := by
  apply findOneByResetLink_none_of
  intro x hx
  simp only [saveResetUser, List.mem_map] at hx
  obtain ⟨w, hw, rfl⟩ := hx
  by_cases hid : w._id = u._id
  · simp [hid, applyResetFields]
  · simp only [if_neg hid]
    intro hcontra
    exact hid (huniq w hw hcontra)

/-! The claim theorems. -/

/-- C1: `resetPassword`, called with a non-empty `resetPasswordLink` that
verifies as a valid unexpired reset token and matches a stored account's
`resetPasswordLink` field, updates that account so that
`password = newPassword` and `resetPasswordLink` is cleared and responds
with a success message; a second call replaying the same token afterwards
fails with the NotFound-style error because no account matches the cleared
field. -/
theorem C1_resetPassword_valid_token_single_use (env : Env) (db : List User)
    (tok : Token) (newPassword : String) (now : Nat) (u : User) (p : Payload)
    (hv : jwtVerify tok env.jwtResetPassword now = some p)
    (hfind : findOneByResetLink db tok = some u)
    (huniq : ∀ v ∈ db, v.resetPasswordLink = some tok → v._id = u._id) :
    (resetPassword env db (some tok) newPassword now false).1
      = [Event.dbWrite u._id,
         Event.respond none (ResBody.message "Reset password is success.")] ∧
    (∃ v ∈ (resetPassword env db (some tok) newPassword now false).2,
        v._id = u._id ∧ v.password = newPassword ∧ v.resetPasswordLink = none) ∧
    findOneByResetLink (resetPassword env db (some tok) newPassword now false).2 tok
      = none ∧
    ∀ np2 now2 sf2,
      Event.respond (some env.appErrorCode)
          (ResBody.error "Password reset failed. Try again later.")
        ∈ (resetPassword env (resetPassword env db (some tok) newPassword now false).2
            (some tok) np2 now2 sf2).1 ∧
      (resetPassword env (resetPassword env db (some tok) newPassword now false).2
          (some tok) np2 now2 sf2).2
        = (resetPassword env db (some tok) newPassword now false).2 := by
  have hu : u ∈ db := List.mem_of_find?_eq_some hfind
  have hrun := resetPassword_found env db tok newPassword now u hfind
  have hverify : resetVerifyEvents env tok now = [] := by
    simp [resetVerifyEvents, hv]
  have hclear := saveResetUser_clears db u newPassword tok huniq
  refine ⟨by simp [hrun, hverify], ?_, ?_, ?_⟩
  · rw [hrun]
    exact saveResetUser_mem db u newPassword hu
  · rw [hrun]
    exact hclear
  · intro np2 now2 sf2
    have hrun2 := resetPassword_notFound env (saveResetUser db u newPassword)
      tok np2 now2 sf2 hclear
    have hmem : Event.respond (some env.appErrorCode)
        (ResBody.error "Password reset failed. Try again later.")
        ∈ (resetPassword env (saveResetUser db u newPassword)
            (some tok) np2 now2 sf2).1 := by
      rw [hrun2]; simp
    have hsame : (resetPassword env (saveResetUser db u newPassword)
        (some tok) np2 now2 sf2).2 = saveResetUser db u newPassword := by
      rw [hrun2]
    constructor
    · rw [hrun]
      exact hmem
    · rw [hrun]
      exact hsame

/-- C1 witness: the single-use property evaluated at a concrete account
holding a valid, unexpired reset token. -/
theorem C1_resetPassword_valid_token_single_use_witness :
    (resetPassword sampleEnv [alice] (some sampleResetToken) "npw" 0 false).1
      = [Event.dbWrite 1,
         Event.respond none (ResBody.message "Reset password is success.")] :=
  (C1_resetPassword_valid_token_single_use sampleEnv [alice] sampleResetToken
    "npw" 0 alice (Payload.reset "Alice") (by decide) (by decide) (by decide)).1

/-- C2: for every request to `login` whose email matches a stored account
but whose password fails the account's authenticate check, the response is
the password-mismatch error and never contains a session token. -/
theorem C2_login_password_mismatch_no_token (authenticate : User → String → Bool)
    (env : Env) (db : List User) (email : String) (password : String)
    (now : Nat) (u : User)
    (hfind : findOneByEmail db email = some u)
    (hauth : authenticate u password = false) :
    login authenticate env db email password now
      = [Event.respond (some env.appErrorCode)
          (ResBody.error "Password isn\x27t match. Please try again.")] ∧
    ∀ e ∈ login authenticate env db email password now, e.hasToken = false := by
  have h1 : login authenticate env db email password now
      = [Event.respond (some env.appErrorCode)
          (ResBody.error "Password isn\x27t match. Please try again.")] := by
    simp only [login, hfind]
    simp [hauth]
  refine ⟨h1, ?_⟩
  rw [h1]
  intro e he
  simp only [List.mem_singleton] at he
  subst he
  rfl

/-- C2 witness: a concrete login attempt with the right email and a wrong
password. -/
theorem C2_login_password_mismatch_no_token_witness :
    login samplePwCheck sampleEnv [alice] "alice@x.com" "wrong" 0
      = [Event.respond (some 400)
          (ResBody.error "Password isn\x27t match. Please try again.")] :=
  (C2_login_password_mismatch_no_token samplePwCheck sampleEnv [alice]
    "alice@x.com" "wrong" 0 alice (by decide) (by decide)).1

/-- C3: for every call to `registerActivate` with a token whose verification
against the activation secret fails (expired, malformed, or wrong
signature), the handler responds with the expired-link error at the
configured error code and creates no account. -/
theorem C3_registerActivate_invalid_token_rejected (env : Env) (db : List User)
    (token : Token) (now : Nat) (newId : Nat) (username : String) (saveFails : Bool)
    (hv : jwtVerify token env.jwtAccountActivation now = none) :
    registerActivate env db token now newId username saveFails
      = ([Event.respond (some env.appErrorCode)
          (ResBody.error "Expired link. Try again")], db) := by
  simp only [registerActivate, hv]

/-- C3 witness: a malformed token is rejected and the empty collection stays
empty. -/
theorem C3_registerActivate_invalid_token_rejected_witness :
    registerActivate sampleEnv [] (Token.malformed "bad") 10 7 "uname7" false
      = ([Event.respond (some 400)
          (ResBody.error "Expired link. Try again")], []) :=
  C3_registerActivate_invalid_token_rejected sampleEnv [] (Token.malformed "bad")
    10 7 "uname7" false (by decide)

/-- C4: in `resetPassword`, when the supplied non-empty `resetPasswordLink`
fails JWT verification against the reset secret (e.g. it is expired) but
still equals some stored account's `resetPasswordLink` field, the
expired-token error response does not stop execution: the handler still
looks the account up and overwrites its password with `newPassword` and
clears the field. -/
theorem C4_resetPassword_expired_error_does_not_stop (env : Env) (db : List User)
    (tok : Token) (newPassword : String) (now : Nat) (u : User)
    (hv : jwtVerify tok env.jwtResetPassword now = none)
    (hfind : findOneByResetLink db tok = some u) :
    (resetPassword env db (some tok) newPassword now false).1
      = [Event.respond (some env.appErrorCode)
           (ResBody.error "Token is expired. Try again later."),
         Event.dbWrite u._id,
         Event.respond none (ResBody.message "Reset password is success.")] ∧
    ∃ v ∈ (resetPassword env db (some tok) newPassword now false).2,
      v._id = u._id ∧ v.password = newPassword ∧ v.resetPasswordLink = none := by
  have hu : u ∈ db := List.mem_of_find?_eq_some hfind
  have hrun := resetPassword_found env db tok newPassword now u hfind
  have hverify : resetVerifyEvents env tok now
      = [Event.respond (some env.appErrorCode)
          (ResBody.error "Token is expired. Try again later.")] := by
    simp [resetVerifyEvents, hv]
  constructor
  · simp [hrun, hverify]
  · rw [hrun]
    exact saveResetUser_mem db u newPassword hu

/-- C4 witness: the expired sample token (checked at time 5000, past its
expiry 3600) still matching Alice's stored field: the expired error is sent
and the password is overwritten anyway. -/
theorem C4_resetPassword_expired_error_does_not_stop_witness :
    (resetPassword sampleEnv [alice] (some sampleResetToken) "npw" 5000 false).1
      = [Event.respond (some 400)
           (ResBody.error "Token is expired. Try again later."),
         Event.dbWrite 1,
         Event.respond none (ResBody.message "Reset password is success.")] :=
  (C4_resetPassword_expired_error_does_not_stop sampleEnv [alice] sampleResetToken
    "npw" 5000 alice (by decide) (by decide)).1

/-- C5: for every account, issuing a second reset token via `forgetPassword`
overwrites the account's `resetPasswordLink` field with the new token, so at
most one reset token is live per account and a subsequent `resetPassword`
with the first (stale) token fails with the NotFound-style error. -/
theorem C5_forgetPassword_overwrites_stale_token (env : Env) (db : List User)
    (email : String) (now2 : Nat) (emailFails : Bool) (u : User) (tok1 : Token)
    (hfind : findOneByEmail db email = some u)
    (huniq : ∀ v ∈ db, v.resetPasswordLink = some tok1 → v._id = u._id)
    (hne : tok1 ≠ mkResetToken env u.name now2) :
    (∃ v ∈ (forgetPassword env db email now2 false emailFails).2,
        v._id = u._id ∧ v.resetPasswordLink = some (mkResetToken env u.name now2)) ∧
    findOneByResetLink (forgetPassword env db email now2 false emailFails).2 tok1
      = none ∧
    ∀ np now3 sf,
      Event.respond (some env.appErrorCode)
          (ResBody.error "Password reset failed. Try again later.")
        ∈ (resetPassword env (forgetPassword env db email now2 false emailFails).2
            (some tok1) np now3 sf).1 ∧
      (resetPassword env (forgetPassword env db email now2 false emailFails).2
          (some tok1) np now3 sf).2
        = (forgetPassword env db email now2 false emailFails).2 := by
  have hu : u ∈ db := List.mem_of_find?_eq_some hfind
  have hdb2 : (forgetPassword env db email now2 false emailFails).2
      = updateResetLink db u._id (mkResetToken env u.name now2) := by
    simp only [forgetPassword, hfind]
    cases emailFails <;> rfl
  have hclear : findOneByResetLink
      (updateResetLink db u._id (mkResetToken env u.name now2)) tok1 = none := by
    apply findOneByResetLink_none_of
    intro x hx
    simp only [updateResetLink, List.mem_map] at hx
    obtain ⟨w, hw, rfl⟩ := hx
    by_cases hid : w._id = u._id
    · rw [if_pos hid]
      intro hcontra
      exact hne (Option.some.inj hcontra).symm
    · rw [if_neg hid]
      intro hcontra
      exact hid (huniq w hw hcontra)
  have hmem : ∃ v ∈ updateResetLink db u._id (mkResetToken env u.name now2),
      v._id = u._id ∧ v.resetPasswordLink = some (mkResetToken env u.name now2) := by
    refine ⟨{ u with resetPasswordLink := some (mkResetToken env u.name now2) },
      ?_, rfl, rfl⟩
    unfold updateResetLink
    exact List.mem_map.mpr ⟨u, hu, by simp⟩
  refine ⟨by rw [hdb2]; exact hmem, by rw [hdb2]; exact hclear, ?_⟩
  intro np now3 sf
  have hrun2 := resetPassword_notFound env
    (updateResetLink db u._id (mkResetToken env u.name now2)) tok1 np now3 sf hclear
  constructor
  · rw [hdb2, hrun2]
    simp
  · rw [hdb2, hrun2]

/-- C5 witness: after Alice requests a second reset token at time 100, a
lookup by her first token misses. -/
theorem C5_forgetPassword_overwrites_stale_token_witness :
    findOneByResetLink
      (forgetPassword sampleEnv [alice] "alice@x.com" 100 false false).2
      sampleResetToken = none :=
  (C5_forgetPassword_overwrites_stale_token sampleEnv [alice] "alice@x.com"
    100 false alice sampleResetToken (by decide) (by decide) (by decide)).2.1

/-- C6: in `forgetPassword`, persisting the reset token into the account's
`resetPasswordLink` always happens before the reset email is sent; if the
update fails, the handler responds with an error and never invokes the email
send. -/
theorem C6_forgetPassword_persist_before_email (env : Env) (db : List User)
    (email : String) (now : Nat) (updateFails : Bool) (emailFails : Bool) (u : User)
    (hfind : findOneByEmail db email = some u) :
    sendsOnlyAfterWrite (forgetPassword env db email now updateFails emailFails).1
      = true ∧
    (updateFails = true →
      forgetPassword env db email now updateFails emailFails
        = ([Event.respond (some env.appErrorCode)
            (ResBody.error "Reset password is failed. Try later.")], db) ∧
      ∀ r t, Event.sendEmail r t
        ∉ (forgetPassword env db email now updateFails emailFails).1) := by
  simp only [forgetPassword, hfind]
  cases updateFails <;> cases emailFails <;> simp [sendsOnlyAfterWrite]

/-- C6 witness: a failing update for Alice's request sends no email. -/
theorem C6_forgetPassword_persist_before_email_witness :
    sendsOnlyAfterWrite
      (forgetPassword sampleEnv [alice] "alice@x.com" 5 true false).1 = true :=
  (C6_forgetPassword_persist_before_email sampleEnv [alice] "alice@x.com" 5
    true false alice (by decide)).1

/-- C8: the claim says a delivery failure after successful persistence is
reported to the caller as a terminal JSON error response; the code's catch
handler instead evaluates the undeclared bare identifier
`APPLICATION_ERROR_CODE` (line 278 lacks the `process.env.` prefix used
everywhere else), so a `ReferenceError` is thrown and no response invocation
at all occurs on that path. -/
theorem C8_forgetPassword_delivery_failure_throws :
    (forgetPassword sampleEnv [alice] "alice@x.com" 5 false true).1
      = [Event.dbWrite 1,
         Event.sendEmail "alice@x.com"
           (Token.signed (Payload.reset "Alice") "rstSecret" 3605),
         Event.throwRefError "APPLICATION_ERROR_CODE"] ∧
    ((forgetPassword sampleEnv [alice] "alice@x.com" 5 false true).1.all
      (fun e => !e.isRespond)) = true := ⟨rfl, rfl⟩

/-- C7: for every call to `resetPassword` in which the `resetPasswordLink`
field of the request body is absent or empty, the handler sends no response
and performs no state change (silent no-op). -/
theorem C7_resetPassword_absent_link_silent_noop (env : Env) (db : List User)
    (newPassword : String) (now : Nat) (saveFails : Bool) :
    resetPassword env db none newPassword now saveFails = ([], db) := rfl

/-- C9: on every successful login, the response body consists of a session
token signed over the account identifier plus a user object containing
exactly the public fields `{_id, name, email, role}` (the `loginData`
constructor has no other component, so the stored password hash is never
included in the response body). -/
theorem C9_login_success_public_fields_only (authenticate : User → String → Bool)
    (env : Env) (db : List User) (email : String) (password : String)
    (now : Nat) (u : User)
    (hfind : findOneByEmail db email = some u)
    (hauth : authenticate u password = true) :
    login authenticate env db email password now
      = [Event.respond none
          (ResBody.loginData (mkSessionToken env u._id now)
            u._id u.name u.email u.role)] := by
  simp only [login, hfind]
  simp [hauth]

/-- C9 witness: a concrete successful login for Alice. -/
theorem C9_login_success_public_fields_only_witness :
    login samplePwCheck sampleEnv [alice] "alice@x.com" "correct" 0
      = [Event.respond none
          (ResBody.loginData (Token.signed (Payload.session 1) "sessSecret" 604800)
            1 "Alice" "alice@x.com" "regular")] :=
  C9_login_success_public_fields_only samplePwCheck sampleEnv [alice]
    "alice@x.com" "correct" 0 alice (by decide) (by decide)

/-- C10: `adminMiddleware` calls `next` with the resolved account attached
to the request context only when the account identifier resolves to an
existing account whose role equals admin; if the account is missing it
rejects with the user-not-found error, and if the account exists but the
role is not admin it rejects with an error of the same shape (same
configured status code, error-string body). -/
theorem C10_adminMiddleware_admin_gate (env : Env) (db : List User)
    (authAdminId : Nat) :
    (findOneById db authAdminId = none →
      adminMiddleware env db authAdminId
        = ([Event.respond (some env.appErrorCode)
            (ResBody.error "User is not found")], none)) ∧
    ∀ u, findOneById db authAdminId = some u →
      (u.role ≠ adminRoleValue →
        adminMiddleware env db authAdminId
          = ([Event.respond (some env.appErrorCode)
              (ResBody.error "Admin resource. Access is denied.")], none)) ∧
      (u.role = adminRoleValue →
        adminMiddleware env db authAdminId = ([Event.next], some u)) := by
  constructor
  · intro h
    simp only [adminMiddleware, h]
  · intro u h
    constructor
    · intro hr
      simp only [adminMiddleware, h]
      simp [hr]
    · intro hr
      simp only [adminMiddleware, h]
      simp [hr]

/-- C10 witness: the admin account Bob passes the gate and is attached as
the profile. -/
theorem C10_adminMiddleware_admin_gate_witness :
    adminMiddleware sampleEnv [bobAdmin] 2 = ([Event.next], some bobAdmin) :=
  ((C10_adminMiddleware_admin_gate sampleEnv [bobAdmin] 2).2 bobAdmin
    (by decide)).2 (by decide)

end Auth
